import Mathlib

set_option autoImplicit false

/-!
Verification development for the De_SpeedTester repository.

The repository has two source files:
* `src/pinger.py` — a scheduling loop that pings a fixed target once per
  second for a fixed duration and writes each result to InfluxDB;
* `src/main.py` — a one-shot speedtest runner gated by a League-of-Legends
  "in game" oracle, with a regional-routing table, a speedtest subprocess
  probe, a normalization step, and an InfluxDB sink.

This file shallowly embeds the data model and operations of both files.
Numeric values (Python floats) are modelled as rationals; external effects
(subprocess execution, HTTP responses, the store write) are modelled as
explicit inputs describing the outcome of each external call.
-/

namespace DeSpeedTester

/-! ### Python string primitives, modelled on character lists

Python `str` operations used by the sources (`split`, `in`, `replace`) are
modelled on `List Char`.  `splitGo` performs non-overlapping leftmost-first
splitting exactly as Python `str.split(sep)` does for a nonempty separator:
`skip` counts separator characters still to be consumed after a match. -/

def splitGo (sep : List Char) : Nat → List Char → List Char → List (List Char)
  | _, acc, [] => [acc.reverse]
  | 0, acc, c :: cs =>
    if sep.isPrefixOf (c :: cs) then acc.reverse :: splitGo sep (sep.length - 1) [] cs
    else splitGo sep 0 (c :: acc) cs
  | k + 1, acc, _ :: cs => splitGo sep k acc cs

/-- Python `s.split(sep)` for a nonempty separator `sep`. -/
def splitOnChars (sep s : List Char) : List (List Char) := splitGo sep 0 [] s

/-- Python `pat in s` (substring containment, nonempty `pat`): the split has
at least two parts exactly when the pattern occurs. -/
def containsSeq (pat s : List Char) : Bool :=
  match splitOnChars pat s with
  | _ :: _ :: _ => true
  | _ => false

/-- Python `s.replace(pat, "")` for a nonempty pattern: remove every
non-overlapping leftmost occurrence of `pat`. -/
def removeAll (pat s : List Char) : List Char := List.intercalate [] (splitOnChars pat s)

/-! ### A model of the Python builtin `float(string)`

The sources call `float(...)` on the token extracted from ping output.  We
model the builtin on plain signed decimal literals (optional sign, digits,
at most one decimal point, at least one digit); every other input is mapped
to `none`, which stands for the `ValueError` the builtin raises. -/

def digitVal (c : Char) : Nat := c.toNat - 48

def allDigits (cs : List Char) : Bool := cs.all (fun c => c.isDigit)

def digitsToNat (cs : List Char) : Nat := cs.foldl (fun a c => a * 10 + digitVal c) 0

def parseDigitsRep (ip fp : List Char) : Option (Nat × Nat) :=
  if ip.isEmpty && fp.isEmpty then none
  else if allDigits ip && allDigits fp then some (digitsToNat (ip ++ fp), fp.length)
  else none

/-- Digit-level reading of an unsigned decimal literal: the digits with the
decimal point removed, read as a natural number, together with the number
of fractional digits. -/
def parseUnsignedRep (cs : List Char) : Option (Nat × Nat) :=
  match splitOnChars ['.'] cs with
  | [ip] => parseDigitsRep ip []
  | [ip, fp] => parseDigitsRep ip fp
  | _ => none

/-- Digit-level reading of a signed decimal literal: sign, mantissa, number
of fractional digits. -/
def parseDecRep (cs : List Char) : Option (Bool × Nat × Nat) :=
  match cs with
  | '-' :: rest => (parseUnsignedRep rest).map (fun p => (true, p))
  | '+' :: rest => (parseUnsignedRep rest).map (fun p => (false, p))
  | _ => (parseUnsignedRep cs).map (fun p => (false, p))

/-- The rational value denoted by a parsed decimal representation. -/
def decRepToRat : Bool × Nat × Nat → ℚ
  | (neg, m, f) => (if neg then -(m : ℚ) else (m : ℚ)) / 10 ^ f

def parsePyFloat (cs : List Char) : Option ℚ := (parseDecRep cs).map decRepToRat

example : splitOnChars "b".data "ab".data = ["a".data, []] := by decide
example : splitOnChars "aa".data "aaa".data = [[], "a".data] := by decide
example : splitOnChars " ".data "23.4 ms".data = ["23.4".data, "ms".data] := by decide
example : containsSeq "time=".data "x time=1 y".data = true := by decide
example : containsSeq "time=".data "x tim=1 y".data = false := by decide
example : removeAll "ms".data "23ms".data = "23".data := by decide
example : parseDecRep "23.4".data = some (false, 234, 1) := by decide
example : parseDecRep "-1.5".data = some (true, 15, 1) := by decide
example : parseDecRep "".data = none := by decide
example : parseDecRep "2x".data = none := by decide
example : parsePyFloat "23.4".data = some ((234 : ℚ) / 10) := by
  have h : parseDecRep "23.4".data = some (false, 234, 1) := by decide
  simp [parsePyFloat, h, decRepToRat]

/-! ### Outcome of one external subprocess invocation

`subprocess.run(command, capture_output=True, text=True)` either raises
(for example when the binary cannot be launched) or completes and reports
the exit status together with the captured standard output and standard
error text. -/

inductive SubprocResult where
  | raised (msg : String)
  | completed (returncode : Int) (stdout : String) (stderr : String)
deriving DecidableEq

namespace Pinger

/-! ## Embedding of `src/pinger.py` -/

/-- Module constant `TARGET` of `pinger.py`. -/
def TARGET : String := "google.com"

/-- Module constant `INTERVAL` of `pinger.py` (seconds between pings). -/
def INTERVAL : Nat := 1

/-- Module constant `DURATION` of `pinger.py` (run for one day, in seconds). -/
def DURATION : Nat := 24 * 60 * 60

/-- The ping command built by `ping_target`, which differs by platform:
Windows uses `-n`/`-w` (milliseconds), other systems `-c`/`-W` (seconds). -/
def ping_command (isWindows : Bool) : List String :=
  if isWindows then ["ping", "-n", "1", "-w", "1000", TARGET]
  else ["ping", "-c", "1", "-W", "1", TARGET]

def timeMark : List Char := "time=".data

def msMark : List Char := "ms".data

/-- The token Python extracts from a line of ping output:
`line.split("time=")[-1].split(" ")[0].replace("ms", "")`. -/
def timeToken (line : List Char) : List Char :=
  removeAll msMark
    (((splitOnChars " ".data ((splitOnChars timeMark line).getLastD [])).headD []))

/-- `ping_target` of `pinger.py`, as a function of the subprocess outcome.
The whole body sits in a `try` whose `except Exception` returns
`(False, None)`; a raising subprocess call therefore yields `(false, none)`.
On exit code `0` the first stdout line containing `"time="` is taken, the
token after the last `"time="` is extracted and fed to `float(...)`; a
parse failure raises `ValueError`, again caught as `(false, none)`.  On a
non-zero exit code, or when no line matches, the result is
`(false, none)`. -/
def parsePingLine (line : List Char) : Bool × Option ℚ :=
  match parsePyFloat (timeToken line) with
  | some q => (true, some q)
  | none => (false, none)

def parsePingStdout (stdout : String) : Bool × Option ℚ :=
  match (splitOnChars ['\n'] stdout.data).find? (fun l => containsSeq timeMark l) with
  | some line => parsePingLine line
  | none => (false, none)

def ping_target (r : SubprocResult) : Bool × Option ℚ :=
  match r with
  | .raised _ => (false, none)
  | .completed rc stdout _ => if rc = 0 then parsePingStdout stdout else (false, none)

/-- The InfluxDB point built by `write_to_influx` of `pinger.py`:
measurement `"ping_results"`, tag `target`, fields `success`
(`int(success)`) and `response_time` (`response_time if success else
None`), and the cycle timestamp. -/
structure PingPoint where
  measurement : String
  target : String
  success : Int
  response_time : Option ℚ
  time : Nat
deriving DecidableEq

def mkPingPoint (ts : Nat) (succ : Bool) (rt : Option ℚ) : PingPoint :=
  { measurement := "ping_results"
    target := TARGET
    success := if succ then 1 else 0
    response_time := if succ then rt else none
    time := ts }

end Pinger

/-! ### Sink lifecycle events

Both `write_to_influx` functions follow the same shape: construct the
client and its write API (`opened`), `try` the point write (`wrote`, absent
when the store raises — the `except Exception` arm logs and swallows it),
and in `finally` call `write_api.__del__()` (`flushed`) and
`client.__del__()` (`closed`).  Client construction and disposal are local
object management of the external store library and are modelled as
non-raising; the store write itself may fail, which is the `SinkWriteError`
case of the spec. -/

inductive SinkEvent where
  | opened
  | wrote
  | flushed
  | closed
deriving DecidableEq

structure SinkResult (α : Type) where
  events : List SinkEvent
  written : Option α
  propagated : Bool
deriving DecidableEq

namespace Pinger

/-- `write_to_influx` of `pinger.py`, as a function of the per-call store
outcome `writeFails`.  The point is built from the loop's timestamp and
`ping_target` outputs; a failing write is caught and logged inside the
function, and the `finally` block always flushes and closes. -/
def write_to_influx (ts : Nat) (succ : Bool) (rt : Option ℚ) (writeFails : Bool) :
    SinkResult PingPoint :=
  let point := mkPingPoint ts succ rt
  match (if writeFails then Except.error "Failed to write to InfluxDB"
         else Except.ok point : Except String PingPoint) with
  | Except.ok p =>
    { events := [.opened, .wrote, .flushed, .closed], written := some p, propagated := false }
  | Except.error _ =>
    { events := [.opened, .flushed, .closed], written := none, propagated := false }

/-! ### The scheduling loop of `pinger.py`

`main()` runs `while (time.time() - start_time) < DURATION:` — each cycle
takes a timestamp, pings, writes, then sleeps `INTERVAL` seconds.  A
`KeyboardInterrupt` (modelled as arriving during the sleep of a designated
cycle) stops the loop; the duration check stops it otherwise.  The
externally-determined data of cycle `i` is a `CycleEnv`: the subprocess
outcome of the ping, whether the store write fails, and how much wall time
the cycle's work adds beyond the interval sleep. -/

structure CycleEnv where
  ping : SubprocResult
  sinkWriteFails : Bool
  extraDelay : Nat

structure CycleLog where
  index : Nat
  startTime : Nat
  sink : SinkResult PingPoint

inductive StopReason where
  | durationElapsed
  | interrupted
deriving DecidableEq

/-- The work of one cycle starting at wall time `t`: take the timestamp,
run `ping_target`, and hand its outputs to `write_to_influx`. -/
def cycleLogAt (env : Nat → CycleEnv) (t i : Nat) : CycleLog :=
  ⟨i, t, write_to_influx t (ping_target (env i).ping).1 (ping_target (env i).ping).2
    (env i).sinkWriteFails⟩

/-- One run of the `while` loop of `pinger.py`'s `main`, from wall time `t`
(seconds since `start_time`) and cycle index `i`.  `intr = some k` means a
`KeyboardInterrupt` arrives during cycle `k`'s sleep. -/
def runLoopGo (duration interval : Nat) (env : Nat → CycleEnv) (intr : Option Nat)
    (hi : 0 < interval) (t i : Nat) : List CycleLog × StopReason :=
  if h : t < duration then
    if intr = some i then ([cycleLogAt env t i], .interrupted)
    else
      (cycleLogAt env t i ::
        (runLoopGo duration interval env intr hi (t + interval + (env i).extraDelay) (i + 1)).1,
       (runLoopGo duration interval env intr hi (t + interval + (env i).extraDelay) (i + 1)).2)
  else ([], .durationElapsed)
termination_by duration - t
decreasing_by all_goals omega

/-- `main()` of `pinger.py`: the loop with the module constants, starting
at time `0` and cycle `0`. -/
def pinger_main (env : Nat → CycleEnv) (intr : Option Nat) : List CycleLog × StopReason :=
  runLoopGo DURATION INTERVAL env intr (by decide) 0 0

end Pinger

namespace Speedtest

/-! ## Embedding of `src/main.py` -/

/-- The module-level `REGIONAL_ROUTING` dictionary, in source order. -/
def REGIONAL_ROUTING : List (String × String) :=
  [("na1", "americas"), ("br1", "americas"), ("lan1", "americas"),
   ("las1", "americas"), ("oce1", "americas"),
   ("euw1", "europe"), ("eun1", "europe"), ("tr1", "europe"), ("ru", "europe"),
   ("jp1", "asia"), ("kr", "asia")]

/-- `get_regional_domain`: a platform region outside the dictionary raises
`ValueError` (modelled as `Except.error` carrying the message); otherwise
the routing prefix is suffixed with the API host. -/
def get_regional_domain (platform_region : String) : Except String String :=
  match REGIONAL_ROUTING.lookup platform_region with
  | none =>
    Except.error ("No known regional mapping for platform \x27" ++ platform_region ++ "\x27")
  | some regional_route => Except.ok (regional_route ++ ".api.riotgames.com")

/-! ### The gate status query -/

/-- Outcome of one `requests.get` call: either a response with a status
code and body text, or a raised `requests.RequestException`. -/
inductive HttpOutcome where
  | status (code : Nat) (body : String)
  | requestException (msg : String)
deriving DecidableEq

/-- `is_in_league_game_v5`: status `200` means in game (`true`); `404`
means not in game; any other status is logged and treated as `false`; a
`RequestException` is caught and defaults to `false` so the speedtest
proceeds.  The function always returns a boolean — no exception escapes. -/
def is_in_league_game_v5 (resp : HttpOutcome) : Bool :=
  match resp with
  | .status code _ => if code = 200 then true else if code = 404 then false else false
  | .requestException _ => false

/-! ### Raw speedtest document and its normalization

`run_speedtest` parses the Speedtest CLI JSON output; the structures below
model the shape `write_to_influx` reads.  `packetLoss` is optional in the
raw document — `data.get("packetLoss", 0)` defaults it to `0`. -/

structure RawPing where
  latency : ℚ
  jitter : ℚ
  low : ℚ
  high : ℚ
deriving DecidableEq

structure RawLatencyStats where
  iqm : ℚ
  low : ℚ
  high : ℚ
  jitter : ℚ
deriving DecidableEq

structure RawTransfer where
  bandwidth : ℚ
  bytes : ℚ
  elapsed : ℚ
  latency : RawLatencyStats
deriving DecidableEq

structure RawInterface where
  internalIp : String
  externalIp : String
  isVpn : Bool
deriving DecidableEq

structure RawServer where
  id : Int
  host : String
  name : String
  location : String
  country : String
  ip : String
deriving DecidableEq

structure RawResult where
  id : String
  url : String
deriving DecidableEq

structure SpeedtestData where
  ping : RawPing
  download : RawTransfer
  upload : RawTransfer
  packetLoss : Option ℚ
  isp : String
  interface : RawInterface
  server : RawServer
  result : RawResult
deriving DecidableEq

/-- The InfluxDB point built by `write_to_influx` of `main.py`
(measurement `"internet_speed"`, no tags), with each field named exactly as
in the source.  Bandwidths are converted from bytes per second to megabits
per second (`* 8 / 1e6`); `packet_loss` is `float(data.get("packetLoss",
0))`. -/
structure SpeedPoint where
  measurement : String
  ping_latency : ℚ
  ping_jitter : ℚ
  ping_low : ℚ
  ping_high : ℚ
  download_bandwidth_mbps : ℚ
  download_bytes : ℚ
  download_elapsed : ℚ
  download_latency_iqm : ℚ
  download_latency_low : ℚ
  download_latency_high : ℚ
  download_latency_jitter : ℚ
  upload_bandwidth_mbps : ℚ
  upload_bytes : ℚ
  upload_elapsed : ℚ
  upload_latency_iqm : ℚ
  upload_latency_low : ℚ
  upload_latency_high : ℚ
  upload_latency_jitter : ℚ
  packet_loss : ℚ
  isp : String
  internal_ip : String
  external_ip : String
  is_vpn : Bool
  server_id : Int
  server_host : String
  server_name : String
  server_location : String
  server_country : String
  server_ip : String
  result_id : String
  result_url : String
  time : Nat
deriving DecidableEq

/-- The normalization performed inside `write_to_influx` of `main.py`:
field extraction and unit conversion from the raw document, with the
timestamp taken from the clock (`datetime.now(timezone.utc)`), not from
the probe output. -/
def speedtestPoint (data : SpeedtestData) (now : Nat) : SpeedPoint :=
  { measurement := "internet_speed"
    ping_latency := data.ping.latency
    ping_jitter := data.ping.jitter
    ping_low := data.ping.low
    ping_high := data.ping.high
    download_bandwidth_mbps := data.download.bandwidth * 8 / 1000000
    download_bytes := data.download.bytes
    download_elapsed := data.download.elapsed
    download_latency_iqm := data.download.latency.iqm
    download_latency_low := data.download.latency.low
    download_latency_high := data.download.latency.high
    download_latency_jitter := data.download.latency.jitter
    upload_bandwidth_mbps := data.upload.bandwidth * 8 / 1000000
    upload_bytes := data.upload.bytes
    upload_elapsed := data.upload.elapsed
    upload_latency_iqm := data.upload.latency.iqm
    upload_latency_low := data.upload.latency.low
    upload_latency_high := data.upload.latency.high
    upload_latency_jitter := data.upload.latency.jitter
    packet_loss := data.packetLoss.getD 0
    isp := data.isp
    internal_ip := data.interface.internalIp
    external_ip := data.interface.externalIp
    is_vpn := data.interface.isVpn
    server_id := data.server.id
    server_host := data.server.host
    server_name := data.server.name
    server_location := data.server.location
    server_country := data.server.country
    server_ip := data.server.ip
    result_id := data.result.id
    result_url := data.result.url
    time := now }

/-- A typed field value, and the field list of a normalized bandwidth
record in the order `write_to_influx` emits the `.field(...)` calls. -/
inductive FValue where
  | num (q : ℚ)
  | int (n : Int)
  | str (s : String)
  | bool (b : Bool)
deriving DecidableEq

def SpeedPoint.fieldList (p : SpeedPoint) : List (String × FValue) :=
  [("ping_latency", .num p.ping_latency),
   ("ping_jitter", .num p.ping_jitter),
   ("ping_low", .num p.ping_low),
   ("ping_high", .num p.ping_high),
   ("download_bandwidth_mbps", .num p.download_bandwidth_mbps),
   ("download_bytes", .num p.download_bytes),
   ("download_elapsed", .num p.download_elapsed),
   ("download_latency_iqm", .num p.download_latency_iqm),
   ("download_latency_low", .num p.download_latency_low),
   ("download_latency_high", .num p.download_latency_high),
   ("download_latency_jitter", .num p.download_latency_jitter),
   ("upload_bandwidth_mbps", .num p.upload_bandwidth_mbps),
   ("upload_bytes", .num p.upload_bytes),
   ("upload_elapsed", .num p.upload_elapsed),
   ("upload_latency_iqm", .num p.upload_latency_iqm),
   ("upload_latency_low", .num p.upload_latency_low),
   ("upload_latency_high", .num p.upload_latency_high),
   ("upload_latency_jitter", .num p.upload_latency_jitter),
   ("packet_loss", .num p.packet_loss),
   ("isp", .str p.isp),
   ("internal_ip", .str p.internal_ip),
   ("external_ip", .str p.external_ip),
   ("is_vpn", .bool p.is_vpn),
   ("server_id", .int p.server_id),
   ("server_host", .str p.server_host),
   ("server_name", .str p.server_name),
   ("server_location", .str p.server_location),
   ("server_country", .str p.server_country),
   ("server_ip", .str p.server_ip),
   ("result_id", .str p.result_id),
   ("result_url", .str p.result_url)]

/-! ### The bandwidth probe `run_speedtest` -/

def hexDigitVal (c : Char) : Option Nat :=
  if c.isDigit then some (c.toNat - 48)
  else if 97 ≤ c.toNat && c.toNat ≤ 102 then some (c.toNat - 87)
  else if 65 ≤ c.toNat && c.toNat ≤ 70 then some (c.toNat - 55)
  else none

/-- A model of `s.encode().decode("unicode_escape")` as used on the server
location string: a backslash-u escape followed by four hex digits becomes
the escaped character; everything else passes through unchanged. -/
def unicodeUnescape : List Char → List Char
  | [] => []
  | '\\' :: 'u' :: a :: b :: c :: d :: rest =>
    match hexDigitVal a, hexDigitVal b, hexDigitVal c, hexDigitVal d with
    | some va, some vb, some vc, some vd =>
      Char.ofNat (((va * 16 + vb) * 16 + vc) * 16 + vd) :: unicodeUnescape rest
    | _, _, _, _ => '\\' :: unicodeUnescape ('u' :: a :: b :: c :: d :: rest)
  | ch :: rest => ch :: unicodeUnescape rest

/-- The in-place update `data["server"]["location"] =
data["server"]["location"].encode().decode("unicode_escape")`. -/
def decodeServerLocation (data : SpeedtestData) : SpeedtestData :=
  { data with server :=
      { data.server with location := String.mk (unicodeUnescape data.server.location.data) } }

/-- Outcome of the `subprocess.run(["speedtest", "--format=json"], ...)`
call: launching the binary may itself raise an `OSError`; otherwise the
command completes with an exit code, a standard output that either parses
as a speedtest document or does not (`json.loads` view), and the captured
standard error text. -/
inductive StdoutDoc where
  | unparsable
  | doc (d : SpeedtestData)
deriving DecidableEq

inductive SpeedtestExec where
  | launchError (msg : String)
  | completed (returncode : Int) (out : StdoutDoc) (stderr : String)
deriving DecidableEq

/-- What a call of `run_speedtest` does, seen from its caller. -/
inductive ProbeOutcome where
  | ok (d : SpeedtestData)
  | execError (msg : String)
  | parseError (msg : String)
  | uncaught (msg : String)
deriving DecidableEq

/-- `run_speedtest`: with `check=True` a non-zero exit raises
`CalledProcessError`, re-raised as `RuntimeError` carrying the captured
stderr; a `json.JSONDecodeError` is re-raised as a distinct `RuntimeError`.
An exception raised while launching the subprocess (for example a missing
`speedtest` binary) matches neither `except` clause and propagates
unchanged (`uncaught`). -/
def run_speedtest (e : SpeedtestExec) : ProbeOutcome :=
  match e with
  | .launchError msg => .uncaught msg
  | .completed rc out stderr =>
    if rc = 0 then
      match out with
      | .unparsable => .parseError "Failed to parse Speedtest CLI output."
      | .doc d => .ok (decodeServerLocation d)
    else .execError ("Speedtest CLI failed: " ++ stderr)

/-- `write_to_influx` of `main.py`: the point above is built and written
inside a `try` whose `except Exception` logs and swallows any failure, and
the `finally` block disposes the write API and the client.  (The
`load_config()` call at the top of the function reads configuration, which
the spec places out of scope; it is not part of the write.) -/
def write_to_influx (data : SpeedtestData) (now : Nat) (writeFails : Bool) :
    SinkResult SpeedPoint :=
  let point := speedtestPoint data now
  match (if writeFails then Except.error "Failed to write to InfluxDB"
         else Except.ok point : Except String SpeedPoint) with
  | Except.ok p =>
    { events := [.opened, .wrote, .flushed, .closed], written := some p, propagated := false }
  | Except.error _ =>
    { events := [.opened, .flushed, .closed], written := none, propagated := false }

end Speedtest

/-! ## Helper lemmas -/

theorem lookup_mem {l : List (String × String)} {k v : String}
    (h : l.lookup k = some v) : (k, v) ∈ l := by
  induction l with
  | nil => simp at h
  | cons p rest ih =>
    obtain ⟨a, b⟩ := p
    rw [List.lookup_cons] at h
    cases hk : (k == a) with
    | true =>
      rw [hk] at h
      obtain rfl : b = v := Option.some.inj h
      have ha : k = a := by simpa using hk
      subst ha
      exact List.mem_cons_self _ _
    | false =>
      rw [hk] at h
      exact List.mem_cons_of_mem _ (ih h)

/-! ## Claims -/

/-- A canonical line of Linux ping output containing the round-trip-time
token, used as a concrete probe observation. -/
def pingOutput : String :=
  "64 bytes from 142.250.74.110: icmp_seq=1 ttl=115 time=23.4 ms"

theorem runLoopGo_none_elapsed (d iv : Nat) (hi : 0 < iv) (env : Nat → Pinger.CycleEnv) :
    ∀ n t i, d - t ≤ n →
      (Pinger.runLoopGo d iv env none hi t i).2 = Pinger.StopReason.durationElapsed := by
  intro n
  induction n with
  | zero =>
    intro t i hn
    rw [Pinger.runLoopGo.eq_def]
    split
    · next h => omega
    · rfl
  | succ n ih =>
    intro t i hn
    rw [Pinger.runLoopGo.eq_def]
    split
    · next h =>
      rw [if_neg (by simp : ¬ ((none : Option Nat) = some i))]
      exact ih _ _ (by omega)
    · rfl

theorem runLoopGo_interrupted (d iv : Nat) (hi : 0 < iv) (env : Nat → Pinger.CycleEnv)
    (intr : Option Nat) :
    ∀ n t i, d - t ≤ n →
      (Pinger.runLoopGo d iv env intr hi t i).2 = Pinger.StopReason.interrupted →
      ∃ k, intr = some k := by
  intro n
  induction n with
  | zero =>
    intro t i hn hres
    rw [Pinger.runLoopGo.eq_def] at hres
    split at hres
    · next h => omega
    · exact absurd hres (by decide)
  | succ n ih =>
    intro t i hn hres
    rw [Pinger.runLoopGo.eq_def] at hres
    split at hres
    · next h =>
      by_cases hk : intr = some i
      · exact ⟨i, hk⟩
      · rw [if_neg hk] at hres
        exact ih _ _ (by omega) hres
    · exact absurd hres (by decide)

theorem runLoopGo_schedule_inv (d iv : Nat) (hi : 0 < iv) (env env2 : Nat → Pinger.CycleEnv)
    (hdel : ∀ j, (env j).extraDelay = (env2 j).extraDelay) :
    ∀ n t i, d - t ≤ n →
      ((Pinger.runLoopGo d iv env none hi t i).1.map fun c => (c.index, c.startTime)) =
      ((Pinger.runLoopGo d iv env2 none hi t i).1.map fun c => (c.index, c.startTime)) := by
  intro n
  induction n with
  | zero =>
    intro t i hn
    conv_lhs => rw [Pinger.runLoopGo.eq_def]
    conv_rhs => rw [Pinger.runLoopGo.eq_def]
    simp only [dif_neg (show ¬ t < d by omega)]
  | succ n ih =>
    intro t i hn
    conv_lhs => rw [Pinger.runLoopGo.eq_def]
    conv_rhs => rw [Pinger.runLoopGo.eq_def]
    by_cases h : t < d
    · simp only [dif_pos h, if_neg (show ¬ ((none : Option Nat) = some i) by simp)]
      simp only [Pinger.cycleLogAt, List.map_cons]
      rw [hdel i]
      refine congrArg (List.cons (i, t)) (ih (t + iv + (env2 i).extraDelay) (i + 1) ?_)
      omega
    · simp only [dif_neg h]

/-- Claim C1: the pinger scheduling loop stops only by explicit
cancellation (`KeyboardInterrupt`) or by the configured duration elapsing:
with no interrupt the run always ends with `durationElapsed`, an
`interrupted` stop can only occur when an interrupt was delivered, and the
schedule of cycles (indices and start times) is unchanged when probe
outcomes or sink-write outcomes are replaced arbitrarily — so a cycle that
fails on iteration `N` does not prevent iteration `N + 1` from running
after the configured interval. -/
theorem scheduler_loop_c1 (env env2 : Nat → Pinger.CycleEnv) (intr : Option Nat)
    (hdel : ∀ j, (env j).extraDelay = (env2 j).extraDelay) :
    (Pinger.pinger_main env none).2 = Pinger.StopReason.durationElapsed ∧
    ((Pinger.pinger_main env intr).2 = Pinger.StopReason.interrupted → ∃ k, intr = some k) ∧
    ((Pinger.pinger_main env none).1.map fun c => (c.index, c.startTime)) =
      ((Pinger.pinger_main env2 none).1.map fun c => (c.index, c.startTime)) :=
  ⟨runLoopGo_none_elapsed Pinger.DURATION Pinger.INTERVAL (by decide) env
      Pinger.DURATION 0 0 (Nat.sub_le _ _),
   fun hres => runLoopGo_interrupted Pinger.DURATION Pinger.INTERVAL (by decide) env intr
      Pinger.DURATION 0 0 (Nat.sub_le _ _) hres,
   runLoopGo_schedule_inv Pinger.DURATION Pinger.INTERVAL (by decide) env env2 hdel
      Pinger.DURATION 0 0 (Nat.sub_le _ _)⟩

theorem scheduler_loop_c1_witness :
    (Pinger.pinger_main (fun _ => ⟨SubprocResult.raised "ProbeExecutionError", true, 0⟩)
        none).2 = Pinger.StopReason.durationElapsed ∧
    ((Pinger.pinger_main (fun _ => ⟨SubprocResult.raised "ProbeExecutionError", true, 0⟩)
        none).1.map fun c => (c.index, c.startTime)) =
      ((Pinger.pinger_main (fun _ => ⟨SubprocResult.completed 0 pingOutput "", false, 0⟩)
        none).1.map fun c => (c.index, c.startTime)) :=
  ⟨(scheduler_loop_c1 (fun _ => ⟨SubprocResult.raised "ProbeExecutionError", true, 0⟩)
      (fun _ => ⟨SubprocResult.completed 0 pingOutput "", false, 0⟩) none (fun _ => rfl)).1,
   (scheduler_loop_c1 (fun _ => ⟨SubprocResult.raised "ProbeExecutionError", true, 0⟩)
      (fun _ => ⟨SubprocResult.completed 0 pingOutput "", false, 0⟩) none (fun _ => rfl)).2.2⟩

/-- Claim C3: for every evaluation of the gate status query
(`is_in_league_game_v5`), HTTP 200 yields suppression (`true`), HTTP 404
yields `false`, any other status yields `false`, and a network error
(`requests.RequestException`) is caught and yields `false` — fail-open,
with no exception escaping (the embedding is a total function into
`Bool`). -/
theorem gate_status_c3 :
    (∀ body, Speedtest.is_in_league_game_v5 (.status 200 body) = true) ∧
    (∀ body, Speedtest.is_in_league_game_v5 (.status 404 body) = false) ∧
    (∀ code body, code ≠ 200 → code ≠ 404 →
      Speedtest.is_in_league_game_v5 (.status code body) = false) ∧
    (∀ msg, Speedtest.is_in_league_game_v5 (.requestException msg) = false) := by
  refine ⟨fun _ => rfl, fun _ => rfl, ?_, fun _ => rfl⟩
  intro code body h200 h404
  simp [Speedtest.is_in_league_game_v5, h200, h404]

theorem gate_status_c3_witness :
    Speedtest.is_in_league_game_v5 (.status 503 "unavailable") = false :=
  gate_status_c3.2.2.1 503 "unavailable" (by decide) (by decide)

/-- Claim C6: every platform region code listed in `REGIONAL_ROUTING` is
routed to one of exactly three domains (`americas`/`europe`/`asia`, each
suffixed with `.api.riotgames.com`), all three of which occur; a code
outside the mapping makes `get_regional_domain` raise (`Except.error`), not
return a default. -/
theorem region_router_c6 :
    (∀ r dom, Speedtest.get_regional_domain r = Except.ok dom →
      dom = "americas.api.riotgames.com" ∨ dom = "europe.api.riotgames.com" ∨
        dom = "asia.api.riotgames.com") ∧
    (Speedtest.get_regional_domain "na1" = Except.ok "americas.api.riotgames.com") ∧
    (Speedtest.get_regional_domain "euw1" = Except.ok "europe.api.riotgames.com") ∧
    (Speedtest.get_regional_domain "kr" = Except.ok "asia.api.riotgames.com") ∧
    (∀ r, Speedtest.REGIONAL_ROUTING.lookup r = none →
      Speedtest.get_regional_domain r =
        Except.error ("No known regional mapping for platform \x27" ++ r ++ "\x27")) := by
  refine ⟨?_, rfl, rfl, rfl, ?_⟩
  · intro r dom h
    unfold Speedtest.get_regional_domain at h
    cases hl : Speedtest.REGIONAL_ROUTING.lookup r with
    | none => rw [hl] at h; cases h
    | some route =>
      rw [hl] at h
      obtain rfl : route ++ ".api.riotgames.com" = dom := by
        cases h; rfl
      have hm := lookup_mem hl
      have hvals : ∀ p ∈ Speedtest.REGIONAL_ROUTING,
          p.2 = "americas" ∨ p.2 = "europe" ∨ p.2 = "asia" := by decide
      have hroute : route = "americas" ∨ route = "europe" ∨ route = "asia" :=
        hvals (r, route) hm
      rcases hroute with rfl | rfl | rfl
      · exact Or.inl rfl
      · exact Or.inr (Or.inl rfl)
      · exact Or.inr (Or.inr rfl)
  · intro r h
    unfold Speedtest.get_regional_domain
    rw [h]

/-- Case analysis of `ping_target`: every invocation either returns
`(false, none)` or returns `(true, some q)` for a value `q` obtained by a
successful `float(...)` parse of some token. -/
theorem parsePingLine_eq_none (line : List Char)
    (h : parsePyFloat (Pinger.timeToken line) = none) :
    Pinger.parsePingLine line = (false, none) := by
  unfold Pinger.parsePingLine
  rw [h]

theorem parsePingLine_eq_some (line : List Char) (q : ℚ)
    (h : parsePyFloat (Pinger.timeToken line) = some q) :
    Pinger.parsePingLine line = (true, some q) := by
  unfold Pinger.parsePingLine
  rw [h]

theorem parsePingStdout_eq_none (out : String)
    (h : (splitOnChars ['\n'] out.data).find? (fun l => containsSeq Pinger.timeMark l) = none) :
    Pinger.parsePingStdout out = (false, none) := by
  unfold Pinger.parsePingStdout
  rw [h]

theorem parsePingStdout_eq_some (out : String) (line : List Char)
    (h : (splitOnChars ['\n'] out.data).find? (fun l => containsSeq Pinger.timeMark l)
      = some line) :
    Pinger.parsePingStdout out = Pinger.parsePingLine line := by
  unfold Pinger.parsePingStdout
  rw [h]

theorem parsePingLine_cases (line : List Char) :
    Pinger.parsePingLine line = (false, none) ∨
      ∃ q, parsePyFloat (Pinger.timeToken line) = some q ∧
        Pinger.parsePingLine line = (true, some q) := by
  cases hq : parsePyFloat (Pinger.timeToken line) with
  | none => exact Or.inl (parsePingLine_eq_none line hq)
  | some q => exact Or.inr ⟨q, rfl, parsePingLine_eq_some line q hq⟩

theorem parsePingStdout_cases (out : String) :
    Pinger.parsePingStdout out = (false, none) ∨
      ∃ tok q, parsePyFloat tok = some q ∧ Pinger.parsePingStdout out = (true, some q) := by
  cases hline : (splitOnChars ['\n'] out.data).find? (fun l => containsSeq Pinger.timeMark l) with
  | none => exact Or.inl (parsePingStdout_eq_none out hline)
  | some line =>
    rcases parsePingLine_cases line with h | ⟨q, hq, h⟩
    · exact Or.inl ((parsePingStdout_eq_some out line hline).trans h)
    · refine Or.inr ⟨Pinger.timeToken line, q, hq, ?_⟩
      exact (parsePingStdout_eq_some out line hline).trans h

theorem ping_target_cases (r : SubprocResult) :
    Pinger.ping_target r = (false, none) ∨
      ∃ tok q, parsePyFloat tok = some q ∧ Pinger.ping_target r = (true, some q) := by
  cases r with
  | raised m => exact Or.inl rfl
  | completed rc out err =>
    have hgoal : Pinger.ping_target (SubprocResult.completed rc out err)
        = (if rc = 0 then Pinger.parsePingStdout out else (false, none)) := rfl
    rw [hgoal]
    by_cases hrc : rc = 0
    · rw [if_pos hrc]
      exact parsePingStdout_cases out
    · rw [if_neg hrc]
      exact Or.inl rfl

/-- Claim C4: a ping output containing the token `time=23.4 ms` together
with exit code `0` parses to `(success = true, response_time = 23.4)`, and
every invocation with a non-zero exit code yields
`(success = false, response_time = none)` regardless of the output text. -/
theorem latency_parse_c4 :
    (containsSeq "time=23.4 ms".data pingOutput.data = true ∧
      Pinger.ping_target (SubprocResult.completed 0 pingOutput "") =
        (true, some ((234 : ℚ) / 10))) ∧
    (∀ rc out err, rc ≠ 0 →
      Pinger.ping_target (SubprocResult.completed rc out err) = (false, none)) := by
  constructor
  · refine ⟨by decide, ?_⟩
    show ((true, some (decRepToRat (false, 234, 1))) : Bool × Option ℚ) =
      (true, some ((234 : ℚ) / 10))
    have h : decRepToRat (false, 234, 1) = (234 : ℚ) / 10 := by
      norm_num [decRepToRat]
    rw [h]
  · intro rc out err h
    have hgoal : Pinger.ping_target (SubprocResult.completed rc out err)
        = (if rc = 0 then Pinger.parsePingStdout out else (false, none)) := rfl
    rw [hgoal, if_neg h]

theorem latency_parse_c4_witness :
    Pinger.ping_target (SubprocResult.completed 1 "time=9999 ms garbage" "") = (false, none) :=
  latency_parse_c4.2 1 "time=9999 ms garbage" "" (by decide)

/-- Claim C10: the latency probe is total at its interface — a raising
subprocess call (missing binary, OS error) yields `(false, none)`, every
invocation yields either `(false, none)` or a successful pair, and whenever
`success` is `true` the response time is the value of a successful
`float(...)` parse. -/
theorem ping_probe_total_c10 :
    (∀ msg, Pinger.ping_target (SubprocResult.raised msg) = (false, none)) ∧
    (∀ r, Pinger.ping_target r = (false, none) ∨
      ∃ tok q, parsePyFloat tok = some q ∧ Pinger.ping_target r = (true, some q)) ∧
    (∀ r, (Pinger.ping_target r).1 = true →
      ∃ tok q, parsePyFloat tok = some q ∧ (Pinger.ping_target r).2 = some q) := by
  refine ⟨fun _ => rfl, ping_target_cases, ?_⟩
  intro r htrue
  rcases ping_target_cases r with h | ⟨tok, q, hq, h⟩
  · rw [h] at htrue; simp at htrue
  · exact ⟨tok, q, hq, by rw [h]⟩

theorem ping_probe_total_c10_witness :
    ∃ tok q, parsePyFloat tok = some q ∧
      (Pinger.ping_target (SubprocResult.completed 0 pingOutput "")).2 = some q :=
  ping_probe_total_c10.2.2 (SubprocResult.completed 0 pingOutput "") rfl

/-- Claim C8: every latency record handed to the sink carries `success`
equal to `0` or `1`, with `response_time` numeric exactly when `success`
is `1` and `none` when `success` is `0`. -/
theorem latency_record_c8 (r : SubprocResult) (ts : Nat) (wf : Bool) (p : Pinger.PingPoint)
    (hp : (Pinger.write_to_influx ts (Pinger.ping_target r).1 (Pinger.ping_target r).2 wf).written
      = some p) :
    (p.success = 0 ∨ p.success = 1) ∧
    (p.success = 1 → ∃ q, p.response_time = some q) ∧
    (p.success = 0 → p.response_time = none) := by
  cases wf with
  | true => simp [Pinger.write_to_influx] at hp
  | false =>
    have hp2 : Pinger.mkPingPoint ts (Pinger.ping_target r).1 (Pinger.ping_target r).2 = p := by
      simpa [Pinger.write_to_influx] using hp
    subst hp2
    rcases ping_target_cases r with h | ⟨tok, q, hq, h⟩
    · rw [h]
      exact ⟨Or.inl rfl, fun h1 => absurd h1 (by simp [Pinger.mkPingPoint]),
        fun _ => rfl⟩
    · rw [h]
      exact ⟨Or.inr rfl, fun _ => ⟨q, rfl⟩,
        fun h0 => absurd h0 (by simp [Pinger.mkPingPoint])⟩

theorem latency_record_c8_witness :
    ((Pinger.mkPingPoint 7 (Pinger.ping_target (SubprocResult.raised "OSError")).1
        (Pinger.ping_target (SubprocResult.raised "OSError")).2).success = 0 ∨
      (Pinger.mkPingPoint 7 (Pinger.ping_target (SubprocResult.raised "OSError")).1
        (Pinger.ping_target (SubprocResult.raised "OSError")).2).success = 1) ∧
    (Pinger.mkPingPoint 7 (Pinger.ping_target (SubprocResult.raised "OSError")).1
      (Pinger.ping_target (SubprocResult.raised "OSError")).2).response_time = none ∧
    (∃ q, (Pinger.mkPingPoint 5
      (Pinger.ping_target (SubprocResult.completed 0 pingOutput "")).1
      (Pinger.ping_target (SubprocResult.completed 0 pingOutput "")).2).response_time = some q) :=
  ⟨(latency_record_c8 (SubprocResult.raised "OSError") 7 false _ rfl).1,
   (latency_record_c8 (SubprocResult.raised "OSError") 7 false _ rfl).2.2 rfl,
   (latency_record_c8 (SubprocResult.completed 0 pingOutput "") 5 false _ rfl).2.1 rfl⟩

/-- Claim C5: when the raw document omits `packetLoss`, the normalized
`packet_loss` field is `0.0`; a raw `download.bandwidth` of `1_000_000`
bytes per second normalizes to exactly `8.0` Mbps; in general the
conversion is raw bytes/sec times 8 divided by 1e6. -/
theorem bandwidth_norm_c5 (d : Speedtest.SpeedtestData) (t : Nat) :
    (d.packetLoss = none → (Speedtest.speedtestPoint d t).packet_loss = 0) ∧
    (d.download.bandwidth = 1000000 →
      (Speedtest.speedtestPoint d t).download_bandwidth_mbps = 8) ∧
    (Speedtest.speedtestPoint d t).download_bandwidth_mbps =
      d.download.bandwidth * 8 / 1000000 := by
  refine ⟨?_, ?_, rfl⟩
  · intro h
    show d.packetLoss.getD 0 = 0
    rw [h]
    rfl
  · intro h
    show d.download.bandwidth * 8 / 1000000 = 8
    rw [h]
    norm_num

def exampleRawDoc : Speedtest.SpeedtestData :=
  { ping := { latency := 12, jitter := 1, low := 11, high := 14 }
    download :=
      { bandwidth := 1000000, bytes := 2000000, elapsed := 15000
        latency := { iqm := 13, low := 11, high := 20, jitter := 2 } }
    upload :=
      { bandwidth := 500000, bytes := 800000, elapsed := 14000
        latency := { iqm := 14, low := 12, high := 22, jitter := 3 } }
    packetLoss := none
    isp := "Example ISP"
    interface := { internalIp := "192.168.1.2", externalIp := "203.0.113.7", isVpn := false }
    server :=
      { id := 4302, host := "speedtest.example.net", name := "Example"
        location := "Helsinki", country := "Finland", ip := "198.51.100.9" }
    result := { id := "abc-123", url := "https://www.speedtest.net/result/c/abc-123" } }

theorem bandwidth_norm_c5_witness :
    (Speedtest.speedtestPoint exampleRawDoc 0).packet_loss = 0 ∧
    (Speedtest.speedtestPoint exampleRawDoc 0).download_bandwidth_mbps = 8 :=
  ⟨(bandwidth_norm_c5 exampleRawDoc 0).1 rfl, (bandwidth_norm_c5 exampleRawDoc 0).2.1 rfl⟩

/-- Claim C9: normalization of a raw bandwidth document is deterministic in
the document — two normalizations of the same document agree field for
field (and on the measurement name) whatever the two clock readings are,
and the records can differ only in the independently assigned timestamp. -/
theorem normalize_deterministic_c9 (d : Speedtest.SpeedtestData) (t t2 : Nat) :
    (Speedtest.speedtestPoint d t).fieldList = (Speedtest.speedtestPoint d t2).fieldList ∧
    (Speedtest.speedtestPoint d t).measurement = (Speedtest.speedtestPoint d t2).measurement ∧
    Speedtest.speedtestPoint d t = { Speedtest.speedtestPoint d t2 with time := t } :=
  ⟨rfl, rfl, rfl⟩

/-- Claim C2: both sinks' `Write` (`write_to_influx` in `pinger.py` and in
`main.py`) catch a failing store write inside the function (nothing
propagates to the caller), and the scoped connection that was opened is
flushed and closed before returning, whether or not the write succeeded. -/
theorem sink_write_c2 (ts : Nat) (succ : Bool) (rt : Option ℚ) (wf : Bool)
    (d : Speedtest.SpeedtestData) (now : Nat) (wf2 : Bool) :
    (Pinger.write_to_influx ts succ rt wf).propagated = false ∧
    (∃ mid, (Pinger.write_to_influx ts succ rt wf).events =
      SinkEvent.opened :: mid ++ [SinkEvent.flushed, SinkEvent.closed]) ∧
    (Speedtest.write_to_influx d now wf2).propagated = false ∧
    (∃ mid, (Speedtest.write_to_influx d now wf2).events =
      SinkEvent.opened :: mid ++ [SinkEvent.flushed, SinkEvent.closed]) := by
  cases wf <;> cases wf2
  · exact ⟨rfl, ⟨[SinkEvent.wrote], rfl⟩, rfl, ⟨[SinkEvent.wrote], rfl⟩⟩
  · exact ⟨rfl, ⟨[SinkEvent.wrote], rfl⟩, rfl, ⟨[], rfl⟩⟩
  · exact ⟨rfl, ⟨[], rfl⟩, rfl, ⟨[SinkEvent.wrote], rfl⟩⟩
  · exact ⟨rfl, ⟨[], rfl⟩, rfl, ⟨[], rfl⟩⟩

/-- The failure modes claim C7 allows at the `run_speedtest` interface: a
normal return, an error carrying the captured stderr (non-zero exit), or a
distinct parse error — written from the claim, to be compared with the
source behaviour. -/
def allowedOutcomeC7 : Speedtest.ProbeOutcome → Bool
  | .ok _ => true
  | .execError _ => true
  | .parseError _ => true
  | .uncaught _ => false

/-- C7 counterexample: a failure to launch the `speedtest` binary (for
example `FileNotFoundError`) matches neither `except subprocess.
CalledProcessError` nor `except json.JSONDecodeError` and propagates out of
`run_speedtest` unchanged — a failure mode beyond the two the claim
permits. -/
theorem bandwidth_probe_c7_counterexample :
    Speedtest.run_speedtest
      (Speedtest.SpeedtestExec.launchError "FileNotFoundError: speedtest") =
      Speedtest.ProbeOutcome.uncaught "FileNotFoundError: speedtest" ∧
    allowedOutcomeC7
      (Speedtest.run_speedtest
        (Speedtest.SpeedtestExec.launchError "FileNotFoundError: speedtest")) = false :=
  ⟨rfl, rfl⟩

/-- C7 amended: a non-zero exit raises an error whose message carries the
captured stderr; exit 0 with unparsable output raises a distinct parse
error; exit 0 with parseable output returns the document (with the server
location unescaped); and a failure to launch the external command
propagates uncaught — there is no further failure mode. -/
theorem bandwidth_probe_c7_amended :
    (∀ rc out err, rc ≠ 0 →
      Speedtest.run_speedtest (.completed rc out err) =
        .execError ("Speedtest CLI failed: " ++ err)) ∧
    (∀ err, Speedtest.run_speedtest (.completed 0 .unparsable err) =
      .parseError "Failed to parse Speedtest CLI output.") ∧
    (∀ d err, Speedtest.run_speedtest (.completed 0 (.doc d) err) =
      .ok (Speedtest.decodeServerLocation d)) ∧
    (∀ msg, Speedtest.run_speedtest (.launchError msg) = .uncaught msg) := by
  refine ⟨?_, fun _ => rfl, fun _ _ => rfl, fun _ => rfl⟩
  intro rc out err h
  have hgoal : Speedtest.run_speedtest (.completed rc out err)
      = (if rc = 0 then
          (match out with
            | .unparsable =>
              Speedtest.ProbeOutcome.parseError "Failed to parse Speedtest CLI output."
            | .doc d => Speedtest.ProbeOutcome.ok (Speedtest.decodeServerLocation d))
        else .execError ("Speedtest CLI failed: " ++ err)) := rfl
  rw [hgoal, if_neg h]

theorem bandwidth_probe_c7_amended_witness :
    Speedtest.run_speedtest (.completed 2 .unparsable "socket: connection reset") =
      Speedtest.ProbeOutcome.execError ("Speedtest CLI failed: " ++ "socket: connection reset") :=
  bandwidth_probe_c7_amended.1 2 Speedtest.StdoutDoc.unparsable "socket: connection reset"
    (by decide)

theorem region_router_c6_witness :
    (("asia.api.riotgames.com" : String) = "americas.api.riotgames.com" ∨
      ("asia.api.riotgames.com" : String) = "europe.api.riotgames.com" ∨
      ("asia.api.riotgames.com" : String) = "asia.api.riotgames.com") ∧
    Speedtest.get_regional_domain "xx9" =
      Except.error ("No known regional mapping for platform \x27" ++ "xx9" ++ "\x27") :=
  ⟨region_router_c6.1 "kr" "asia.api.riotgames.com" rfl,
   region_router_c6.2.2.2.2 "xx9" (by decide)⟩

end DeSpeedTester
